import Mathlib

/-
Shallow embedding of src/MCJobSubmission/mcJobSubmission.py (the justIN
workflow orchestrator).  Python dicts are modelled as association lists of
string keys (insertion-ordered, duplicate-free in practice, exactly like
Python dicts); Python values as the inductive `PyVal`.  Fallible code
(`require`, i.e. ValueError, and type errors raised by `dict(...)`) is
modelled with `Option`/`Except`.  `sys.exit(n)` and uncaught exceptions are
distinguished in the `Outcome` type: an uncaught Python exception makes the
interpreter terminate with exit status 1, not with a `sys.exit` code.
-/

namespace MCJob

/-- Model of a Python value as it appears in a parsed YAML/JSON config
document: None, strings, integers, booleans, lists and string-keyed dicts. -/
inductive PyVal where
  | vnone : PyVal
  | vstr : String → PyVal
  | vint : Int → PyVal
  | vbool : Bool → PyVal
  | vlist : List PyVal → PyVal
  | vdict : List (String × PyVal) → PyVal
deriving Repr

/-- Association-list representation of a Python dict (keys in insertion
order, first occurrence of a key is the binding, as Python dicts never hold
a key twice). -/
abbrev AList (α : Type) := List (String × α)

/-- Model of a Python dict holding `PyVal` values. -/
abbrev Dict := AList PyVal

/-- Lookup of a key, `d[k]` / `k in d` (first matching entry). -/
def dlookup {α : Type} : AList α → String → Option α
  | [], _ => Option.none
  | (k', v) :: rest, k => if k' = k then some v else dlookup rest k

/-- Membership test `k in d`. -/
def dmem {α : Type} (d : AList α) (k : String) : Bool :=
  (dlookup d k).isSome

/-- Keys of a dict, in order. -/
def dkeys {α : Type} (d : AList α) : List String :=
  d.map Prod.fst

/-- Model of `d[k] = v`: overwrite the binding in place if the key is
present (Python keeps the key at its original position), append otherwise. -/
def dsetKey {α : Type} : AList α → String → α → AList α
  | [], k, v => [(k, v)]
  | (k', v') :: rest, k, v =>
      if k' = k then (k, v) :: rest else (k', v') :: dsetKey rest k v

/-- Model of `d.update(e)`: set every entry of `e` into `d`, in `e`'s
iteration order. -/
def dupdate {α : Type} (d e : AList α) : AList α :=
  e.foldl (fun acc kv => dsetKey acc kv.1 kv.2) d

/-- Model of `d.get(k, dflt)`. -/
def pyGet (d : Dict) (k : String) (dflt : PyVal) : PyVal :=
  (dlookup d k).getD dflt

/-- Python truthiness of a value (`bool(v)`). -/
def pyTruthy : PyVal → Bool
  | PyVal.vnone => false
  | PyVal.vstr s => s != ""
  | PyVal.vint n => n != 0
  | PyVal.vbool b => b
  | PyVal.vlist l => !l.isEmpty
  | PyVal.vdict d => !d.isEmpty

/-- Model of the Python idiom `v or dflt`. -/
def truthyOr (v dflt : PyVal) : PyVal :=
  if pyTruthy v then v else dflt

mutual

/-- Model of Python `repr` on config values.  (Python would additionally
escape quote and control characters inside string reprs; no claim exercises
repr of a string containing such characters, so they are rendered
verbatim.) -/
def pyRepr : PyVal → String
  | PyVal.vnone => "None"
  | PyVal.vstr s => "\x27" ++ s ++ "\x27"
  | PyVal.vint n => toString n
  | PyVal.vbool b => cond b "True" "False"
  | PyVal.vlist l => "[" ++ String.intercalate ", " (pyReprList l) ++ "]"
  | PyVal.vdict d => "\x7b" ++ String.intercalate ", " (pyReprDict d) ++ "\x7d"

/-- Reprs of the elements of a list value. -/
def pyReprList : List PyVal → List String
  | [] => []
  | v :: rest => pyRepr v :: pyReprList rest

/-- Reprs of the entries of a dict value. -/
def pyReprDict : List (String × PyVal) → List String
  | [] => []
  | (k, v) :: rest => ("\x27" ++ k ++ "\x27: " ++ pyRepr v) :: pyReprDict rest

end

/-- Model of Python `str(v)`: identity on strings, repr-like elsewhere. -/
def pyStr (v : PyVal) : String :=
  match v with
  | PyVal.vstr s => s
  | _ => pyRepr v

/-- Embedding of `as_str` (mcJobSubmission.py lines 42-45): the empty
string for None, `str(v)` otherwise. -/
def as_str (v : PyVal) : String :=
  match v with
  | PyVal.vnone => ""
  | _ => pyStr v

/-- Whitespace characters removed by Python `str.strip()` (the ASCII ones;
unicode whitespace, which no justin output contains, is not modelled). -/
def pySpaceChar (c : Char) : Bool :=
  c = ' ' || c = '\t' || c = '\n' || c = '\r' || c = '\x0b' || c = '\x0c'

/-- Model of Python `s.strip()`: drop leading and trailing whitespace. -/
def pyStrip (s : String) : String :=
  String.mk (((s.data.dropWhile pySpaceChar).reverse.dropWhile pySpaceChar).reverse)

/-- Model of `dict(d.get("env", {}) or {})` (mcJobSubmission.py lines
92-93): an absent key or a falsy value (None, empty containers, zero)
yields a fresh empty dict; a truthy dict value is shallow-copied; a truthy
non-dict value makes `dict(...)` raise (modelled as `Option.none`; Python
would also accept an iterable of key-value pairs, a corner no config
reaches and not modelled). -/
def envDictOf (d : Dict) : Option Dict :=
  match dlookup d "env" with
  | Option.none => some []
  | some v =>
      if pyTruthy v then
        match v with
        | PyVal.vdict e => some e
        | _ => Option.none
      else some []

/-- Embedding of `merge_defaults` (mcJobSubmission.py lines 88-96):
`merged = dict(defaults); merged.update(stage)`, then the env sub-maps are
merged key-by-key (`env_d = dict(defaults.get("env", {}) or {});
env_s = dict(stage.get("env", {}) or {}); env_d.update(env_s);
merged["env"] = env_d`).  `Option.none` models the exception raised by
`dict(...)` on a truthy non-dict env value. -/
def merge_defaults (stage defaults : Dict) : Option Dict :=
  let merged := dupdate defaults stage
  match envDictOf defaults, envDictOf stage with
  | some env_d, some env_s =>
      some (dsetKey merged "env" (PyVal.vdict (dupdate env_d env_s)))
  | _, _ => Option.none

/-! Executor layer: `build_justin_cmd` and `run_cmd`. -/

/-- Character class kept unquoted by Python `shlex.quote`: word characters
plus `@`, `%`, `+`, `=`, `:`, `,`, `.`, slash and dash (restricted to
ASCII, as config tokens are ASCII). -/
def shlexSafeChar (c : Char) : Bool :=
  c.isAlphanum || c = '_' || c = '@' || c = '%' || c = '+' || c = '=' ||
    c = ':' || c = ',' || c = '.' || c = '/' || c = '-'

/-- Model of Python `shlex.quote`: the empty string becomes two quotes, a
string of safe characters is returned as-is, anything else is wrapped in
single quotes with embedded single quotes escaped. -/
def shlex_quote (s : String) : String :=
  if s = "" then "\x27\x27"
  else if s.toList.all shlexSafeChar then s
  else "\x27" ++ s.replace "\x27" "\x27\"\x27\"\x27" ++ "\x27"

/-- Embedding of `build_justin_cmd` (mcJobSubmission.py lines 48-63). -/
def build_justin_cmd (argv_list : List String) (with_dune_setup : Bool) : List String :=
  if !with_dune_setup then argv_list
  else
    let prelude :=
      "source /cvmfs/dune.opensciencegrid.org/products/dune/setup_dune.sh >/dev/null 2>&1; " ++
      "setup justin >/dev/null 2>&1; "
    ["bash", "-lc", prelude ++ String.intercalate " " (argv_list.map shlex_quote)]

/-- Outcome of one spawned (or simulated) process: exit status and captured
output.  A `subprocess.CompletedProcess` with `stdout`/`stderr` of `None`
(capture off) is modelled with empty strings, as the orchestrator never
reads them in that case. -/
structure ProcResult where
  returncode : Int
  stdout : String
  stderr : String
deriving Repr, DecidableEq

/-- Result of one `run_cmd` call: the line echoed to the log before
execution, the argv actually handed to `subprocess.run` (`Option.none` when
no process was spawned, i.e. in dry-run), and the process result. -/
structure RunCmdResult where
  echoed : String
  spawned : Option (List String)
  result : ProcResult
deriving Repr

/-- Embedding of `run_cmd` (mcJobSubmission.py lines 66-85).  The external
`justin` client is abstracted as an `oracle` mapping the spawned argv to
its process result; `capture` off blanks the captured streams (Python would
carry `None`). -/
def runCmd (oracle : List String → ProcResult) (argv_list : List String)
    (dry_run with_dune_setup capture : Bool) : RunCmdResult :=
  let real_argv := build_justin_cmd argv_list with_dune_setup
  let printable := "+ " ++ String.intercalate " " (real_argv.map shlex_quote)
  if dry_run then
    { echoed := printable, spawned := Option.none,
      result := { returncode := 0, stdout := "", stderr := "" } }
  else
    let r := oracle real_argv
    { echoed := printable, spawned := some real_argv,
      result := if capture then r
                else { returncode := r.returncode, stdout := "", stderr := "" } }

/-! Command builder: the per-stage `create-stage` argument list
(mcJobSubmission.py lines 153-247).  Each block of the source is embedded
as one definition, and `build_stage_cmd` concatenates them in source
order; the fallible blocks (`require`) live in `Except String` carrying
the ValueError message. -/

/-- Model of `"k" in d and d["k"]` (membership plus truthiness). -/
def memTruthy (d : Dict) (k : String) : Bool :=
  match dlookup d k with
  | some v => pyTruthy v
  | Option.none => false

/-- Model of `"k" in d and d["k"] is not None`. -/
def memNotNone (d : Dict) (k : String) : Bool :=
  match dlookup d k with
  | some v => match v with
              | PyVal.vnone => false
              | _ => true
  | Option.none => false

/-- Model of `list += string` in Python: the string is iterated and each
character is appended as its own one-character string element. -/
def strChars (s : String) : List String :=
  s.toList.map (fun c => String.singleton c)

/-- Resource flags block (lines 170-177). -/
def resource_flags (st : Dict) : List String :=
  (if dmem st "wall_seconds" then ["--wall-seconds", as_str (pyGet st "wall_seconds" PyVal.vnone)] else [])
  ++ (if dmem st "rss_mib" then ["--rss-mib", as_str (pyGet st "rss_mib" PyVal.vnone)] else [])
  ++ (if dmem st "processors" then ["--processors", as_str (pyGet st "processors" PyVal.vnone)] else [])
  ++ (if pyTruthy (pyGet st "gpu" (PyVal.vbool false)) then ["--gpu"] else [])

/-- Env flags block (lines 180-183): `env = st_merged.get("env", {}) or {}`,
require it to be a dict, then one repeated `--env K=V` pair per entry. -/
def env_flags (stage_id : String) (st : Dict) : Except String (List String) :=
  match truthyOr (pyGet st "env" (PyVal.vdict [])) (PyVal.vdict []) with
  | PyVal.vdict e =>
      Except.ok (e.flatMap (fun kv => ["--env", kv.1 ++ "=" ++ pyStr kv.2]))
  | _ => Except.error ("Stage " ++ stage_id ++ ": env must be a dict of KEY: VALUE")

/-- Tarball override block (lines 186-187). -/
def tarfile_flags (st : Dict) : List String :=
  if memNotNone st "tarfile_dir" then
    ["--env", "INPUT_TAR_DIR_LOCAL=" ++ as_str (pyGet st "tarfile_dir" PyVal.vnone)]
  else []

/-- Software-version block (lines 190-193).  When `dunesw_version` is set
and not None the source appends the two-element list
`["--env", "DUNESW_VERSION=..."]`; otherwise it executes
`cmd += "--env DUNESW_VERSION=v10_17_01d00"`, which extends the argv list
with the 33 characters of that string as 33 one-character tokens. -/
def dunesw_flags (st : Dict) : List String :=
  if memNotNone st "dunesw_version" then
    ["--env", "DUNESW_VERSION=" ++ as_str (pyGet st "dunesw_version" PyVal.vnone)]
  else
    strChars "--env DUNESW_VERSION=v10_17_01d00"

/-- FHICL block (lines 196-197). -/
def fhicl_flags (st : Dict) : List String :=
  if memNotNone st "fhicl_files" then
    ["--env", "FCL_TGZ_URL=" ++ as_str (pyGet st "fhicl_files" PyVal.vnone)]
  else []

/-- Intermediate-stage output block (lines 202-203). -/
def next_stage_flags (st : Dict) : List String :=
  if memTruthy st "output_pattern_next_stage" then
    ["--output-pattern-next-stage", as_str (pyGet st "output_pattern_next_stage" PyVal.vnone)]
  else []

/-- Terminal output block (lines 209-215): the list form `output_patterns`
is checked first; only when it is absent or falsy does the singular
`output_pattern` contribute (an `elif` in the source). -/
def output_pattern_flags (stage_id : String) (st : Dict) : Except String (List String) :=
  if memTruthy st "output_patterns" then
    match pyGet st "output_patterns" PyVal.vnone with
    | PyVal.vlist ops =>
        Except.ok (ops.flatMap (fun pat => ["--output-pattern", as_str pat]))
    | _ => Except.error ("Stage " ++ stage_id ++ ": output_patterns must be a list")
  else if memTruthy st "output_pattern" then
    Except.ok ["--output-pattern", as_str (pyGet st "output_pattern" PyVal.vnone)]
  else Except.ok []

/-- RSE targeting block (lines 218-221). -/
def rse_flags (st : Dict) : List String :=
  (if memTruthy st "output_rse" then ["--output-rse", as_str (pyGet st "output_rse" PyVal.vnone)] else [])
  ++ (if memTruthy st "output_rse_expression" then
        ["--output-rse-expression", as_str (pyGet st "output_rse_expression" PyVal.vnone)]
      else [])

/-- Lifetime block (lines 224-225). -/
def lifetime_flags (st : Dict) : List String :=
  if memNotNone st "lifetime_days" then
    ["--lifetime-days", as_str (pyGet st "lifetime_days" PyVal.vnone)]
  else []

/-- Max-distance block (lines 228-229). -/
def max_distance_flags (st : Dict) : List String :=
  if memNotNone st "max_distance" then
    ["--max-distance", as_str (pyGet st "max_distance" PyVal.vnone)]
  else []

/-- Site restriction block (lines 233-237). -/
def site_flags (stage_id : String) (st : Dict) : Except String (List String) :=
  if memTruthy st "sites" then
    match pyGet st "sites" PyVal.vnone with
    | PyVal.vlist ss => Except.ok (ss.flatMap (fun s => ["--site", as_str s]))
    | _ => Except.error ("Stage " ++ stage_id ++ ": sites must be a list")
  else Except.ok []

/-- Classad block (lines 240-247): a list value gives one `--classad` per
element, any other truthy value a single flag. -/
def classad_flags (st : Dict) : List String :=
  if memTruthy st "classad" then
    match pyGet st "classad" PyVal.vnone with
    | PyVal.vlist ca => ca.flatMap (fun one => ["--classad", as_str one])
    | v => ["--classad", as_str v]
  else []

/-- Embedding of the create-stage command construction (mcJobSubmission.py
lines 153-247) for one merged stage record.  `wfid` is already a string in
the source (`as_str(wfid)` is the identity there).  The `require`d fields
(`repo`, `ref`, `jobscript`) are checked first; the flag blocks are then
concatenated in source order, with the fallible blocks sequenced in the
order their `require` calls execute (env before output_patterns before
sites), so the first failing check yields the same ValueError message as
the source. -/
def build_stage_cmd (justin_global : List String) (wfid : String)
    (st : Dict) (defaults : Dict) : Except String (List String) :=
  let stage_id := as_str (pyGet st "id" PyVal.vnone)
  let repo := pyGet st "repo" (pyGet defaults "repo" PyVal.vnone)
  let ref := pyGet st "ref" (pyGet defaults "ref" PyVal.vnone)
  let jobscript := pyGet st "jobscript" PyVal.vnone
  if !pyTruthy repo then
    Except.error ("Stage " ++ stage_id ++ ": repo missing (set defaults.repo or stage.repo).")
  else if !pyTruthy ref then
    Except.error ("Stage " ++ stage_id ++ ": ref missing (set defaults.ref or stage.ref).")
  else if !pyTruthy jobscript then
    Except.error ("Stage " ++ stage_id ++ ": jobscript missing.")
  else
    match env_flags stage_id st with
    | Except.error e => Except.error e
    | Except.ok envFlags =>
        match output_pattern_flags stage_id st with
        | Except.error e => Except.error e
        | Except.ok opFlags =>
            match site_flags stage_id st with
            | Except.error e => Except.error e
            | Except.ok sFlags =>
                Except.ok (justin_global ++
                  ["create-stage",
                   "--workflow-id", wfid,
                   "--stage-id", stage_id,
                   "--jobscript-git", pyStr repo ++ "/" ++ pyStr jobscript ++ ":" ++ pyStr ref] ++
                  resource_flags st ++ envFlags ++ tarfile_flags st ++ dunesw_flags st ++
                  fhicl_flags st ++ next_stage_flags st ++ opFlags ++ rse_flags st ++
                  lifetime_flags st ++ max_distance_flags st ++ sFlags ++ classad_flags st)

/-! Orchestration engine: embedding of `main` (mcJobSubmission.py lines
99-269) after argument parsing and config loading. -/

/-- Command-line arguments of the orchestrator (argparse result).
`instanceOpt`/`urlOpt` model `--instance`/`--url` (default `None`). -/
structure Args where
  dry_run : Bool
  with_dune_setup : Bool
  verbose : Bool
  instanceOpt : Option String
  urlOpt : Option String

/-- Termination behaviour of one orchestrator run: normal completion
(process exit status 0), an explicit `sys.exit(n)`, or an uncaught Python
exception (such as the `ValueError` raised by `require`), which makes the
interpreter print a traceback and terminate with exit status 1. -/
inductive Outcome where
  | completed : Outcome
  | exited : Nat → Outcome
  | uncaught : String → Outcome
deriving Repr, DecidableEq

/-- Observable trace of one run: stdout prints, stderr prints, the argv
lists actually handed to `subprocess.run` (in order), and how the run
ended. -/
structure Trace where
  log : List String
  errlog : List String
  spawned : List (List String)
  outcome : Outcome
deriving Repr

/-- Global `justin` flags (lines 122-128): `["justin"]` plus optional
`-v`, `--instance`, `--url` (each string option is tested for Python
truthiness, so `None` and the empty string are skipped). -/
def optFlag (flag : String) (o : Option String) : List String :=
  match o with
  | some s => if s = "" then [] else [flag, s]
  | Option.none => []

/-- Embedding of the `justin_global` list construction (lines 122-128). -/
def justin_global (a : Args) : List String :=
  ["justin"] ++ (if a.verbose then ["-v"] else [])
    ++ optFlag "--instance" a.instanceOpt ++ optFlag "--url" a.urlOpt

/-- Embedding of the create-workflow argv construction (lines 131-135). -/
def create_wf_cmd (a : Args) (workflow : Dict) : List String :=
  justin_global a ++
    ["create-workflow",
     "--description", as_str (pyGet workflow "description" PyVal.vnone),
     "--monte-carlo", as_str (pyGet workflow "monte_carlo" PyVal.vnone)]

/-- Embedding of the submit-workflow argv construction (line 257). -/
def submit_cmd (a : Args) (wfid : String) : List String :=
  justin_global a ++ ["submit-workflow", "--workflow-id", wfid]

/-- Embedding of the show-stages argv construction (line 268). -/
def show_cmd (a : Args) (wfid : String) : List String :=
  justin_global a ++ ["show-stages", "--workflow-id", wfid]

/-- ValueError message of line 149. -/
def msgStageMapping : String := "Each stage entry must be a mapping/dict."

/-- ValueError message of line 150. -/
def msgStageId : String := "Each stage needs an \x27id\x27."

/-- ValueError message of line 117. -/
def msgStagesList : String := "Config must contain a non-empty \x27stages:\x27 list."

/-- ValueError message of line 144. -/
def msgWfid : String := "Could not parse workflow id from create-workflow output."

/-- Embedding of the stage loop and the tail of `main` (lines 148-269):
process the remaining stage entries in declared order, then submit the
workflow and optionally show its stages.  `log`, `errlog` and `spawned`
accumulate the trace produced so far. -/
def loop_stages (oracle : List String → ProcResult) (a : Args)
    (defaults : Dict) (wfid : String) :
    List PyVal → List String → List String → List (List String) → Trace
  | [], log, errlog, spawned =>
      let r := runCmd oracle (submit_cmd a wfid) a.dry_run a.with_dune_setup true
      let log := log ++ [r.echoed]
      let spawned := spawned ++ r.spawned.toList
      if r.result.returncode ≠ 0 then
        { log := log,
          errlog := errlog ++ ["ERROR: submit-workflow failed."] ++
            (if r.result.stderr ≠ "" then [r.result.stderr] else []),
          spawned := spawned, outcome := Outcome.exited 4 }
      else
        let r2 := runCmd oracle (show_cmd a wfid) a.dry_run a.with_dune_setup false
        { log := log ++ ["Submitted WFID=" ++ wfid, r2.echoed],
          errlog := errlog,
          spawned := spawned ++ r2.spawned.toList,
          outcome := Outcome.completed }
  | stv :: rest, log, errlog, spawned =>
      match stv with
      | PyVal.vdict st =>
          if dmem st "id" then
            match merge_defaults st defaults with
            | some st_merged =>
                match build_stage_cmd (justin_global a) wfid st_merged defaults with
                | Except.ok cmd =>
                    let r := runCmd oracle cmd a.dry_run a.with_dune_setup true
                    let log := log ++ [r.echoed]
                    let spawned := spawned ++ r.spawned.toList
                    if r.result.returncode ≠ 0 then
                      { log := log,
                        errlog := errlog ++
                          ["ERROR: create-stage failed for stage " ++
                            as_str (pyGet st_merged "id" PyVal.vnone) ++ "."] ++
                          (if r.result.stderr ≠ "" then [r.result.stderr] else []),
                        spawned := spawned, outcome := Outcome.exited 3 }
                    else loop_stages oracle a defaults wfid rest log errlog spawned
                | Except.error msg =>
                    { log := log, errlog := errlog, spawned := spawned,
                      outcome := Outcome.uncaught msg }
            | Option.none =>
                { log := log, errlog := errlog, spawned := spawned,
                  outcome := Outcome.uncaught
                    "dict() on a non-dict env value (TypeError)" }
          else
            { log := log, errlog := errlog, spawned := spawned,
              outcome := Outcome.uncaught msgStageId }
      | _ =>
          { log := log, errlog := errlog, spawned := spawned,
            outcome := Outcome.uncaught msgStageMapping }

/-- Embedding of `main` (lines 99-269) from the parsed config dict on: the
document sections are extracted with `cfg.get(key, ...) or ...`, the
config-level `require`s run, the workflow is created (exit 2 on failure),
the workflow id is taken from trimmed stdout (`"DRYRUN_WFID"` under
dry-run) and required non-empty, then the stage loop runs.  A truthy
non-mapping `workflow`/`defaults` value is modelled as an uncaught
TypeError (Python would raise on the later dict operations; for a string
value Python's substring-membership would differ, a corner no claim
touches). -/
def mc_main (oracle : List String → ProcResult) (a : Args) (cfg : Dict) : Trace :=
  let workflowV := truthyOr (pyGet cfg "workflow" (PyVal.vdict [])) (PyVal.vdict [])
  let defaultsV := truthyOr (pyGet cfg "defaults" (PyVal.vdict [])) (PyVal.vdict [])
  let stagesV := truthyOr (pyGet cfg "stages" (PyVal.vlist [])) (PyVal.vlist [])
  match workflowV, defaultsV with
  | PyVal.vdict workflow, PyVal.vdict defaults =>
      (match stagesV with
       | PyVal.vlist stages =>
           if stages.isEmpty then
             { log := [], errlog := [], spawned := [],
               outcome := Outcome.uncaught msgStagesList }
           else if !dmem workflow "description" then
             { log := [], errlog := [], spawned := [],
               outcome := Outcome.uncaught "workflow.description is required" }
           else if !dmem workflow "monte_carlo" then
             { log := [], errlog := [], spawned := [],
               outcome := Outcome.uncaught "workflow.monte_carlo is required" }
           else
             let r := runCmd oracle (create_wf_cmd a workflow) a.dry_run a.with_dune_setup true
             let log := [r.echoed]
             let spawned := r.spawned.toList
             if r.result.returncode ≠ 0 then
               { log := log,
                 errlog := ["ERROR: create-workflow failed."] ++
                   (if r.result.stderr ≠ "" then [r.result.stderr] else []),
                 spawned := spawned, outcome := Outcome.exited 2 }
             else
               let wfid := if a.dry_run then "DRYRUN_WFID" else pyStrip r.result.stdout
               if wfid = "" then
                 { log := log, errlog := [], spawned := spawned,
                   outcome := Outcome.uncaught msgWfid }
               else
                 loop_stages oracle a defaults wfid stages
                   (log ++ ["WFID=" ++ wfid]) [] spawned
       | _ =>
           { log := [], errlog := [], spawned := [],
             outcome := Outcome.uncaught msgStagesList })
  | _, _ =>
      { log := [], errlog := [], spawned := [],
        outcome := Outcome.uncaught "non-mapping workflow or defaults (TypeError)" }

/-! Heap model of `merge_defaults`, making Python object identity and
in-place mutation explicit, to settle the frame property that the function
leaves its argument dicts (and their env sub-dicts) unmodified.  A heap is
a list of dict cells addressed by index; dict values are either immutable
scalars or references to other cells (a nested dict such as `env` is a
separate object, hence a reference). -/

/-- Value stored in a heap dict cell: an immutable scalar, or a reference
to another heap cell (nested dicts are always referenced, never inlined). -/
inductive HVal where
  | prim : PyVal → HVal
  | ref : Nat → HVal
deriving Repr

/-- Contents of one dict object on the heap. -/
abbrev HDict := AList HVal

/-- Heap of dict objects; the address of a cell is its index. -/
abbrev Heap := List HDict

/-- Allocation of a fresh dict object: append a cell, return its address. -/
def halloc (h : Heap) (d : HDict) : Heap × Nat :=
  (h ++ [d], h.length)

/-- Read a cell (addresses produced by `halloc` are always in range). -/
def hget (h : Heap) (a : Nat) : HDict :=
  (h[a]?).getD []

/-- In-place mutation of the cell at address `a`. -/
def hset (h : Heap) (a : Nat) (d : HDict) : Heap :=
  h.set a d

/-- Heap-level model of `dict(owner.get("env", {}) or {})`: the contents
the fresh copy will hold.  An absent key or a falsy scalar yields an empty
dict (a reference to an empty cell is itself falsy only when the cell is
empty, in which case the copied contents are empty anyway, so both branches
coincide on `ref`); a truthy non-dict scalar makes `dict(...)` raise,
modelled as `Option.none`. -/
def envContents (h : Heap) (owner : HDict) : Option HDict :=
  match dlookup owner "env" with
  | Option.none => some []
  | some (HVal.ref a) => some (hget h a)
  | some (HVal.prim v) => if pyTruthy v then Option.none else some []

/-- Heap-level embedding of `merge_defaults` (mcJobSubmission.py lines
88-96) on the dict objects at addresses `stageA` and `defaultsA`, mirroring
the source statement by statement: allocate `merged` as a copy of
`defaults`, mutate it with `merged.update(stage)`, allocate the `env_d` and
`env_s` copies, mutate `env_d` with `env_d.update(env_s)`, and finally
mutate `merged` with `merged["env"] = env_d`.  Returns the final heap and
the address of `merged`. -/
def merge_defaults_heap (h : Heap) (stageA defaultsA : Nat) : Option (Heap × Nat) :=
  let stage := hget h stageA
  let defaults := hget h defaultsA
  let p1 := halloc h defaults
  let h1 := p1.1
  let mergedA := p1.2
  let h2 := hset h1 mergedA (dupdate (hget h1 mergedA) stage)
  match envContents h2 defaults with
  | Option.none => Option.none
  | some env_d =>
      let p2 := halloc h2 env_d
      let h3 := p2.1
      let envA := p2.2
      match envContents h3 stage with
      | Option.none => Option.none
      | some env_s =>
          let p3 := halloc h3 env_s
          let h4 := p3.1
          let envsA := p3.2
          let h5 := hset h4 envA (dupdate (hget h4 envA) (hget h4 envsA))
          let h6 := hset h5 mergedA (dsetKey (hget h5 mergedA) "env" (HVal.ref envA))
          some (h6, mergedA)

/-- One stage entry is processed cleanly by the loop: it is a mapping with
an `id`, its merge and command construction succeed, and the external call
for it returns exit status 0. -/
def stage_ok (oracle : List String → ProcResult) (a : Args) (defaults : Dict)
    (wfid : String) (stv : PyVal) : Prop :=
  ∃ st m cmd, stv = PyVal.vdict st ∧ dmem st "id" = true ∧
    merge_defaults st defaults = some m ∧
    build_stage_cmd (justin_global a) wfid m defaults = Except.ok cmd ∧
    (runCmd oracle cmd a.dry_run a.with_dune_setup true).result.returncode = 0

/-! Concrete fixtures used to instantiate claims on closed inputs. -/

/-- Plain invocation: no dry-run, no bootstrap wrapper, no optional flags. -/
def argsPlain : Args :=
  { dry_run := false, with_dune_setup := false, verbose := false,
    instanceOpt := Option.none, urlOpt := Option.none }

/-- Minimal workflow metadata section. -/
def wfMeta : Dict := [("description", PyVal.vstr "d"), ("monte_carlo", PyVal.vint 5)]

/-- A minimal well-formed stage. -/
def stageOne : Dict :=
  [("id", PyVal.vstr "s1"), ("repo", PyVal.vstr "org/repo"),
   ("ref", PyVal.vstr "main"), ("jobscript", PyVal.vstr "g4.jobscript")]

/-- A second well-formed stage, declared after the first. -/
def stageTwo : Dict :=
  [("id", PyVal.vstr "s2"), ("repo", PyVal.vstr "org/repo"),
   ("ref", PyVal.vstr "main"), ("jobscript", PyVal.vstr "g4.jobscript")]

/-- Config document with two stages. -/
def cfgTwoStages : Dict :=
  [("workflow", PyVal.vdict wfMeta),
   ("stages", PyVal.vlist [PyVal.vdict stageOne, PyVal.vdict stageTwo])]

/-- Config document whose single stage entry is a mapping lacking an id. -/
def cfgNoIdStage : Dict :=
  [("workflow", PyVal.vdict wfMeta), ("stages", PyVal.vlist [PyVal.vdict []])]

/-- Oracle whose every call succeeds with whitespace-only stdout. -/
def oracleBlankStdout : List String → ProcResult :=
  fun _ => { returncode := 0, stdout := "  \n", stderr := "" }

/-- Oracle: every call succeeds; the create-workflow call prints id WF1. -/
def oracleWfOk : List String → ProcResult :=
  fun argv =>
    if argv = create_wf_cmd argsPlain wfMeta then
      { returncode := 0, stdout := "WF1\n", stderr := "" }
    else { returncode := 0, stdout := "", stderr := "" }

/-- Oracle: the create-workflow call prints id WF1; every other call fails
with exit status 1. -/
def oracleStageFails : List String → ProcResult :=
  fun argv =>
    if argv = create_wf_cmd argsPlain wfMeta then
      { returncode := 0, stdout := "WF1\n", stderr := "" }
    else { returncode := 1, stdout := "", stderr := "boom" }

/-- Consecutive-pair test: does token `x` occur immediately followed by `y`? -/
def hasConsecPair : List String → String → String → Bool
  | a :: b :: rest, x, y => (a == x && b == y) || hasConsecPair (b :: rest) x y
  | _, _, _ => false

/-- Classification of a stage entry that fails the per-entry `require`
checks of lines 149-150: `some msg` is the ValueError message raised when
the loop reaches it, `none` means the entry passes both checks. -/
def bad_entry_msg : PyVal → Option String
  | PyVal.vdict st => if dmem st "id" then Option.none else some msgStageId
  | _ => some msgStageMapping

/-! Generic lemmas about the dict operations. -/

theorem dlookup_dsetKey {α : Type} (d : AList α) (k : String) (v : α) (k2 : String) :
    dlookup (dsetKey d k v) k2 = if k = k2 then some v else dlookup d k2 := by
  induction d with
  | nil => simp [dsetKey, dlookup]
  | cons kv rest ih =>
      obtain ⟨k', v'⟩ := kv
      by_cases h1 : k' = k
      · subst h1
        by_cases h2 : k' = k2 <;> simp [dsetKey, dlookup, h2]
      · by_cases h2 : k' = k2
        · subst h2
          have hk : ¬ k = k' := fun hh => h1 hh.symm
          simp [dsetKey, dlookup, h1, hk]
        · simp [dsetKey, dlookup, h1, h2, ih]

theorem dlookup_eq_none {α : Type} (d : AList α) (k : String) :
    dlookup d k = Option.none ↔ k ∉ dkeys d := by
  induction d with
  | nil => simp [dlookup, dkeys]
  | cons kv rest ih =>
      obtain ⟨k', v'⟩ := kv
      by_cases h : k' = k
      · subst h
        simp [dlookup, dkeys]
      · simp only [dlookup, if_neg h, dkeys, List.map_cons, List.mem_cons]
        rw [ih]
        constructor
        · intro hn hm
          cases hm with
          | inl he => exact h he.symm
          | inr hm2 => exact hn hm2
        · intro hn hm
          exact hn (Or.inr hm)

theorem dlookup_dupdate {α : Type} (e : AList α) :
    ∀ (d : AList α) (k : String), (dkeys e).Nodup →
      dlookup (dupdate d e) k = (dlookup e k).or (dlookup d k) := by
  induction e with
  | nil =>
      intro d k _
      simp [dupdate, dlookup, Option.or]
  | cons kv tl ih =>
      intro d k h
      obtain ⟨k0, v0⟩ := kv
      have hstep : dupdate d ((k0, v0) :: tl) = dupdate (dsetKey d k0 v0) tl := rfl
      simp only [dkeys, List.map_cons, List.nodup_cons] at h
      obtain ⟨hk0, hnd⟩ := h
      rw [hstep, ih _ k hnd, dlookup_dsetKey]
      by_cases hkk : k0 = k
      · subst hkk
        have hnone : dlookup tl k0 = Option.none := (dlookup_eq_none tl k0).2 hk0
        simp [dlookup, hnone, Option.or]
      · cases hl : dlookup tl k <;> simp [dlookup, hkk, Option.or, hl]

theorem dsetKey_of_not_mem {α : Type} (d : AList α) (k : String) (v : α)
    (h : k ∉ dkeys d) : dsetKey d k v = d ++ [(k, v)] := by
  induction d with
  | nil => rfl
  | cons kv rest ih =>
      obtain ⟨k', v'⟩ := kv
      simp only [dkeys, List.map_cons, List.mem_cons, not_or] at h
      have hne : ¬ k' = k := fun hh => h.1 hh.symm
      simp [dsetKey, hne, ih h.2]

theorem dkeys_dsetKey_of_mem {α : Type} (d : AList α) (k : String) (v : α)
    (h : k ∈ dkeys d) : dkeys (dsetKey d k v) = dkeys d := by
  induction d with
  | nil => simp [dkeys] at h
  | cons kv rest ih =>
      obtain ⟨k', v'⟩ := kv
      by_cases h1 : k' = k
      · subst h1
        simp [dsetKey, dkeys]
      · have hmem : k ∈ dkeys rest := by
          simp only [dkeys, List.map_cons, List.mem_cons] at h
          exact h.resolve_left (fun hh => h1 hh.symm)
        have h2 : dkeys (dsetKey rest k v) = dkeys rest := ih hmem
        simp only [dkeys, List.map_cons] at h2 ⊢
        simp [dsetKey, h1, h2]

theorem dkeys_dsetKey_of_not_mem {α : Type} (d : AList α) (k : String) (v : α)
    (h : k ∉ dkeys d) : dkeys (dsetKey d k v) = dkeys d ++ [k] := by
  rw [dsetKey_of_not_mem d k v h]
  simp [dkeys]

theorem dupdate_append_of_disjoint {α : Type} (e : AList α) :
    ∀ d : AList α, (dkeys e).Nodup → (∀ k ∈ dkeys e, k ∉ dkeys d) →
      dupdate d e = d ++ e := by
  induction e with
  | nil =>
      intro d _ _
      simp [dupdate]
  | cons kv tl ih =>
      intro d hnd hdisj
      obtain ⟨k0, v0⟩ := kv
      have hstep : dupdate d ((k0, v0) :: tl) = dupdate (dsetKey d k0 v0) tl := rfl
      simp only [dkeys, List.map_cons, List.nodup_cons] at hnd
      obtain ⟨hk0, hnd'⟩ := hnd
      have hk0d : k0 ∉ dkeys d := hdisj k0 (by simp [dkeys])
      rw [hstep, dsetKey_of_not_mem d k0 v0 hk0d]
      have hdisj' : ∀ k ∈ dkeys tl, k ∉ dkeys (d ++ [(k0, v0)]) := by
        intro k hk hmem
        simp only [dkeys, List.map_append, List.mem_append, List.map_cons,
          List.map_nil, List.mem_singleton] at hmem
        cases hmem with
        | inl hin =>
            exact hdisj k
              (by simp only [dkeys, List.map_cons, List.mem_cons]; exact Or.inr hk) hin
        | inr heq => exact hk0 (heq ▸ hk)
      rw [ih (d ++ [(k0, v0)]) hnd' hdisj']
      simp

theorem dupdate_nil_left {α : Type} (e : AList α) (h : (dkeys e).Nodup) :
    dupdate ([] : AList α) e = e := by
  have := dupdate_append_of_disjoint e [] h (by intro k _ hk; simp [dkeys] at hk)
  simpa using this

/-! Lemmas about the command builder and the stage loop. -/

theorem build_stage_cmd_shape (g : List String) (w : String) (st d : Dict)
    (cmd : List String) (h : build_stage_cmd g w st d = Except.ok cmd) :
    ∃ tail, cmd = g ++ "create-stage" :: tail := by
  simp only [build_stage_cmd] at h
  repeat' split at h
  all_goals try exact Except.noConfusion h
  all_goals
    (have hc : _ = cmd := (Except.ok.injEq _ _).mp h
     subst hc
     simp only [List.append_assoc, List.cons_append, List.nil_append]
     exact ⟨_, rfl⟩)

theorem build_stage_cmd_ok_decomp (g : List String) (w : String) (st d : Dict)
    (cmd : List String) (h : build_stage_cmd g w st d = Except.ok cmd) :
    ∃ envFlags opFlags sFlags,
      env_flags (as_str (pyGet st "id" PyVal.vnone)) st = Except.ok envFlags ∧
      output_pattern_flags (as_str (pyGet st "id" PyVal.vnone)) st = Except.ok opFlags ∧
      site_flags (as_str (pyGet st "id" PyVal.vnone)) st = Except.ok sFlags ∧
      cmd = g ++
        ["create-stage",
         "--workflow-id", w,
         "--stage-id", as_str (pyGet st "id" PyVal.vnone),
         "--jobscript-git",
         pyStr (pyGet st "repo" (pyGet d "repo" PyVal.vnone)) ++ "/" ++
           pyStr (pyGet st "jobscript" PyVal.vnone) ++ ":" ++
           pyStr (pyGet st "ref" (pyGet d "ref" PyVal.vnone))] ++
        resource_flags st ++ envFlags ++ tarfile_flags st ++ dunesw_flags st ++
        fhicl_flags st ++ next_stage_flags st ++ opFlags ++ rse_flags st ++
        lifetime_flags st ++ max_distance_flags st ++ sFlags ++ classad_flags st := by
  simp only [build_stage_cmd] at h
  repeat' split at h
  all_goals try exact Except.noConfusion h
  exact ⟨_, _, _, by assumption, by assumption, by assumption,
    ((Except.ok.injEq _ _).mp h).symm⟩

theorem append_cons_ne (g : List String) (s1 s2 : String) (t1 t2 : List String)
    (hne : s1 ≠ s2) : g ++ s1 :: t1 ≠ g ++ s2 :: t2 := by
  intro h
  have h2 := List.append_cancel_left h
  injection h2 with h3 _
  exact hne h3

theorem loop_stages_prefix (oracle : List String → ProcResult) (a : Args)
    (defaults : Dict) (wfid : String)
    (hdry : a.dry_run = false) (hwds : a.with_dune_setup = false) :
    ∀ (pre : List PyVal), (∀ stv ∈ pre, stage_ok oracle a defaults wfid stv) →
    ∀ (l : List PyVal) (log errlog : List String) (spawned : List (List String)),
    ∃ (logs : List String) (cmds : List (List String)),
      cmds.length = pre.length ∧
      (∀ c ∈ cmds, ∃ tail, c = justin_global a ++ "create-stage" :: tail) ∧
      loop_stages oracle a defaults wfid (pre ++ l) log errlog spawned =
        loop_stages oracle a defaults wfid l (log ++ logs) errlog (spawned ++ cmds) := by
  intro pre
  induction pre with
  | nil =>
      intro _ l log errlog spawned
      refine ⟨[], [], rfl, ?_, ?_⟩
      · intro c hc
        cases hc
      · simp
  | cons stv pre ih =>
      intro hok l log errlog spawned
      obtain ⟨st, m, cmd, hst, hid, hmerge, hbuild, hrc⟩ := hok stv (by simp)
      subst hst
      have hrun : runCmd oracle cmd a.dry_run a.with_dune_setup true =
          { echoed := "+ " ++ String.intercalate " " (cmd.map shlex_quote),
            spawned := some cmd,
            result := oracle cmd } := by
        simp [runCmd, build_justin_cmd, hdry, hwds]
      rw [hrun] at hrc
      have hstep : loop_stages oracle a defaults wfid ((PyVal.vdict st :: pre) ++ l) log errlog spawned =
          loop_stages oracle a defaults wfid (pre ++ l)
            (log ++ ["+ " ++ String.intercalate " " (cmd.map shlex_quote)]) errlog
            (spawned ++ [cmd]) := by
        show loop_stages oracle a defaults wfid (PyVal.vdict st :: (pre ++ l)) log errlog spawned = _
        simp only [loop_stages, hid, if_true, hmerge, hbuild, hrun]
        simp at hrc
        simp [hrc]
      obtain ⟨logs, cmds, hlen, hshape, heq⟩ :=
        ih (fun s hs => hok s (by simp [hs])) l
          (log ++ ["+ " ++ String.intercalate " " (cmd.map shlex_quote)]) errlog
          (spawned ++ [cmd])
      refine ⟨("+ " ++ String.intercalate " " (cmd.map shlex_quote)) :: logs,
        cmd :: cmds, by simp [hlen], ?_, ?_⟩
      · intro c hc
        cases hc with
        | head => exact build_stage_cmd_shape _ _ _ _ _ hbuild
        | tail _ hc2 => exact hshape c hc2
      · rw [hstep, heq]
        simp [List.append_assoc]

/-! Lemmas about the heap model. -/

theorem hget_halloc_old (h : Heap) (d : HDict) (a : Nat) (ha : a < h.length) :
    hget (halloc h d).1 a = hget h a := by
  simp [halloc, hget, List.getElem?_append, ha]

theorem hget_hset_ne (h : Heap) (i : Nat) (d : HDict) (a : Nat) (hne : i ≠ a) :
    hget (hset h i d) a = hget h a := by
  simp [hset, hget, List.getElem?_set_ne hne]

theorem hget_append_old (h : Heap) (d : HDict) (a : Nat) (ha : a < h.length) :
    hget (h ++ [d]) a = hget h a := by
  simp [hget, List.getElem?_append, ha]

theorem merge_defaults_heap_frame (h : Heap) (sA dA : Nat) (h' : Heap) (r : Nat)
    (hm : merge_defaults_heap h sA dA = some (h', r)) (a : Nat) (ha : a < h.length) :
    hget h' a = hget h a := by
  simp only [merge_defaults_heap, halloc] at hm
  split at hm
  · exact Option.noConfusion hm
  · split at hm
    · exact Option.noConfusion hm
    · rw [Option.some.injEq] at hm
      injection hm with hmh hmr
      rw [← hmh]
      rw [hget_hset_ne _ _ _ _ (Nat.ne_of_lt ha).symm]
      rw [hget_hset_ne _ _ _ _
        (by simp only [hset, List.length_set, List.length_append, List.length_cons,
              List.length_nil]; omega)]
      rw [hget_append_old _ _ _
        (by simp only [hset, List.length_set, List.length_append, List.length_cons,
              List.length_nil]; omega)]
      rw [hget_append_old _ _ _
        (by simp only [hset, List.length_set, List.length_append, List.length_cons,
              List.length_nil]; omega)]
      rw [hget_hset_ne _ _ _ _ (Nat.ne_of_lt ha).symm]
      rw [hget_append_old _ _ _ ha]

/-! Lemmas about `mc_main`. -/

theorem mc_main_after_create (oracle : List String → ProcResult) (a : Args) (cfg : Dict)
    (workflow defaults : Dict) (stages : List PyVal)
    (hwf : truthyOr (pyGet cfg "workflow" (PyVal.vdict [])) (PyVal.vdict []) =
      PyVal.vdict workflow)
    (hdf : truthyOr (pyGet cfg "defaults" (PyVal.vdict [])) (PyVal.vdict []) =
      PyVal.vdict defaults)
    (hst : truthyOr (pyGet cfg "stages" (PyVal.vlist [])) (PyVal.vlist []) =
      PyVal.vlist stages)
    (hne : stages ≠ [])
    (hdesc : dmem workflow "description" = true)
    (hmc : dmem workflow "monte_carlo" = true)
    (hdry : a.dry_run = false) (hwds : a.with_dune_setup = false)
    (hrc : (oracle (create_wf_cmd a workflow)).returncode = 0) :
    mc_main oracle a cfg =
      (if pyStrip (oracle (create_wf_cmd a workflow)).stdout = "" then
        { log := ["+ " ++ String.intercalate " " ((create_wf_cmd a workflow).map shlex_quote)],
          errlog := [],
          spawned := [create_wf_cmd a workflow],
          outcome := Outcome.uncaught msgWfid }
      else
        loop_stages oracle a defaults (pyStrip (oracle (create_wf_cmd a workflow)).stdout) stages
          ["+ " ++ String.intercalate " " ((create_wf_cmd a workflow).map shlex_quote),
           "WFID=" ++ pyStrip (oracle (create_wf_cmd a workflow)).stdout]
          [] [create_wf_cmd a workflow]) := by
  have hie : stages.isEmpty = false := by simp [hne]
  have hrun : runCmd oracle (create_wf_cmd a workflow) false a.with_dune_setup true =
      { echoed := "+ " ++ String.intercalate " " ((create_wf_cmd a workflow).map shlex_quote),
        spawned := some (create_wf_cmd a workflow),
        result := oracle (create_wf_cmd a workflow) } := by
    simp [runCmd, build_justin_cmd, hwds]
  unfold mc_main
  rw [hwf, hdf, hst]
  simp only [hie, hdesc, hmc, hdry, hrun, hrc]
  simp

theorem loop_stages_bad_head (oracle : List String → ProcResult) (a : Args)
    (defaults : Dict) (wfid : String) (badv : PyVal) (rest : List PyVal)
    (log errlog : List String) (spawned : List (List String)) (msg : String)
    (hbad : bad_entry_msg badv = some msg) :
    loop_stages oracle a defaults wfid (badv :: rest) log errlog spawned =
      { log := log, errlog := errlog, spawned := spawned,
        outcome := Outcome.uncaught msg } := by
  cases badv <;> simp only [bad_entry_msg] at hbad
  case vdict st =>
    by_cases hid : dmem st "id"
    · rw [if_pos hid] at hbad
      exact Option.noConfusion hbad
    · rw [if_neg hid] at hbad
      rw [Option.some.injEq] at hbad
      subst hbad
      have hid' : dmem st "id" = false := by
        cases hdm : dmem st "id"
        · rfl
        · exact absurd hdm hid
      simp [loop_stages, hid']
  all_goals
    (rw [Option.some.injEq] at hbad
     subst hbad
     simp [loop_stages])

theorem loop_stages_fail_head (oracle : List String → ProcResult) (a : Args)
    (defaults : Dict) (wfid : String) (bst m : Dict) (bcmd : List String)
    (rest : List PyVal) (log errlog : List String) (spawned : List (List String))
    (hdry : a.dry_run = false) (hwds : a.with_dune_setup = false)
    (hid : dmem bst "id" = true)
    (hm : merge_defaults bst defaults = some m)
    (hb : build_stage_cmd (justin_global a) wfid m defaults = Except.ok bcmd)
    (hrc : (oracle bcmd).returncode ≠ 0) :
    loop_stages oracle a defaults wfid (PyVal.vdict bst :: rest) log errlog spawned =
      { log := log ++ ["+ " ++ String.intercalate " " (bcmd.map shlex_quote)],
        errlog := errlog ++
          ["ERROR: create-stage failed for stage " ++
            as_str (pyGet m "id" PyVal.vnone) ++ "."] ++
          (if (oracle bcmd).stderr ≠ "" then [(oracle bcmd).stderr] else []),
        spawned := spawned ++ [bcmd],
        outcome := Outcome.exited 3 } := by
  have hrun : runCmd oracle bcmd a.dry_run a.with_dune_setup true =
      { echoed := "+ " ++ String.intercalate " " (bcmd.map shlex_quote),
        spawned := some bcmd,
        result := oracle bcmd } := by
    simp [runCmd, build_justin_cmd, hdry, hwds]
  simp only [loop_stages, hid, if_true, hm, hb, hrun]
  simp [hrc]

/-! Claims. -/

/-- Claim C1 counterexample: with the create-workflow call returning exit
status 0 and whitespace-only stdout on a well-formed two-stage document,
the run does abort before stage creation (only the create-workflow argv is
ever spawned), but the abort is the uncaught ValueError of `require` —
terminating the interpreter with exit status 1 — not `sys.exit(2)`. -/
theorem c1_counterexample :
    (mc_main oracleBlankStdout argsPlain cfgTwoStages).outcome = Outcome.uncaught msgWfid ∧
    (mc_main oracleBlankStdout argsPlain cfgTwoStages).outcome ≠ Outcome.exited 2 ∧
    (mc_main oracleBlankStdout argsPlain cfgTwoStages).spawned =
      [create_wf_cmd argsPlain wfMeta] := by
  refine ⟨?_, ?_, ?_⟩ <;> decide

/-- Claim C1 (amended): for every run in which the create-workflow call
returns exit status 0 but its stripped stdout is empty, the orchestrator
aborts before any stage creation — the create-workflow argv is the only
command ever spawned — by raising an uncaught ValueError (interpreter exit
status 1), not by `sys.exit(2)`. -/
theorem c1_blank_wfid_raises_valueerror (oracle : List String → ProcResult)
    (a : Args) (cfg : Dict) (workflow defaults : Dict) (stages : List PyVal)
    (hwf : truthyOr (pyGet cfg "workflow" (PyVal.vdict [])) (PyVal.vdict []) =
      PyVal.vdict workflow)
    (hdf : truthyOr (pyGet cfg "defaults" (PyVal.vdict [])) (PyVal.vdict []) =
      PyVal.vdict defaults)
    (hst : truthyOr (pyGet cfg "stages" (PyVal.vlist [])) (PyVal.vlist []) =
      PyVal.vlist stages)
    (hne : stages ≠ [])
    (hdesc : dmem workflow "description" = true)
    (hmc : dmem workflow "monte_carlo" = true)
    (hdry : a.dry_run = false) (hwds : a.with_dune_setup = false)
    (hrc : (oracle (create_wf_cmd a workflow)).returncode = 0)
    (hblank : pyStrip (oracle (create_wf_cmd a workflow)).stdout = "") :
    (mc_main oracle a cfg).outcome = Outcome.uncaught msgWfid ∧
    (mc_main oracle a cfg).spawned = [create_wf_cmd a workflow] := by
  rw [mc_main_after_create oracle a cfg workflow defaults stages
    hwf hdf hst hne hdesc hmc hdry hwds hrc]
  rw [if_pos hblank]
  exact ⟨rfl, rfl⟩

/-- Claim C1 witness: blank create-workflow stdout on the two-stage fixture
leads to the uncaught-ValueError abort with exactly one spawned command. -/
theorem c1_blank_wfid_raises_valueerror_witness :
    (mc_main oracleBlankStdout argsPlain cfgTwoStages).outcome = Outcome.uncaught msgWfid ∧
    (mc_main oracleBlankStdout argsPlain cfgTwoStages).spawned =
      [create_wf_cmd argsPlain wfMeta] :=
  c1_blank_wfid_raises_valueerror oracleBlankStdout argsPlain cfgTwoStages
    wfMeta [] [PyVal.vdict stageOne, PyVal.vdict stageTwo]
    rfl rfl rfl (List.cons_ne_nil _ _) rfl rfl rfl rfl rfl rfl

/-- Claim C3 counterexample: for the document whose single stage entry is a
mapping without an `id`, the run does fail with the configuration
ValueError of line 150, but only after the create-workflow invocation has
been executed: the spawned-command list at failure is non-empty and
consists of exactly the create-workflow argv — contradicting the claim
that the failure happens before any external call. -/
theorem c3_counterexample :
    (mc_main oracleWfOk argsPlain cfgNoIdStage).outcome = Outcome.uncaught msgStageId ∧
    (mc_main oracleWfOk argsPlain cfgNoIdStage).spawned = [create_wf_cmd argsPlain wfMeta] ∧
    (mc_main oracleWfOk argsPlain cfgNoIdStage).spawned ≠ [] := by
  refine ⟨?_, ?_, ?_⟩ <;> decide

/-- Claim C3 (amended): for every document with a stage entry that is not a
mapping or lacks an `id`, once the run reaches that entry (create-workflow
succeeded with a parseable id and every earlier stage processed cleanly)
it fails with the configuration ValueError of lines 149-150 before issuing
that entry's create-stage call — but the create-workflow invocation and
the earlier stages' create-stage invocations have already been executed;
the per-entry validation happens inside the stage loop, not before the
first external call. -/
theorem c3_bad_stage_entry_fails_in_loop (oracle : List String → ProcResult)
    (a : Args) (cfg : Dict) (workflow defaults : Dict)
    (pre : List PyVal) (badv : PyVal) (rest : List PyVal) (msg : String)
    (hwf : truthyOr (pyGet cfg "workflow" (PyVal.vdict [])) (PyVal.vdict []) =
      PyVal.vdict workflow)
    (hdf : truthyOr (pyGet cfg "defaults" (PyVal.vdict [])) (PyVal.vdict []) =
      PyVal.vdict defaults)
    (hst : truthyOr (pyGet cfg "stages" (PyVal.vlist [])) (PyVal.vlist []) =
      PyVal.vlist (pre ++ badv :: rest))
    (hdesc : dmem workflow "description" = true)
    (hmc : dmem workflow "monte_carlo" = true)
    (hdry : a.dry_run = false) (hwds : a.with_dune_setup = false)
    (hrc : (oracle (create_wf_cmd a workflow)).returncode = 0)
    (hwfid : pyStrip (oracle (create_wf_cmd a workflow)).stdout ≠ "")
    (hpre : ∀ stv ∈ pre,
      stage_ok oracle a defaults (pyStrip (oracle (create_wf_cmd a workflow)).stdout) stv)
    (hbad : bad_entry_msg badv = some msg) :
    (mc_main oracle a cfg).outcome = Outcome.uncaught msg ∧
    ∃ cmds, cmds.length = pre.length ∧
      (mc_main oracle a cfg).spawned = create_wf_cmd a workflow :: cmds := by
  rw [mc_main_after_create oracle a cfg workflow defaults (pre ++ badv :: rest)
    hwf hdf hst (by simp) hdesc hmc hdry hwds hrc]
  rw [if_neg hwfid]
  obtain ⟨logs, cmds, hlen, hshape, heq⟩ :=
    loop_stages_prefix oracle a defaults
      (pyStrip (oracle (create_wf_cmd a workflow)).stdout) hdry hwds pre hpre
      (badv :: rest)
      ["+ " ++ String.intercalate " " ((create_wf_cmd a workflow).map shlex_quote),
       "WFID=" ++ pyStrip (oracle (create_wf_cmd a workflow)).stdout]
      [] [create_wf_cmd a workflow]
  rw [heq, loop_stages_bad_head oracle a defaults _ badv rest _ _ _ msg hbad]
  exact ⟨rfl, cmds, hlen, by simp⟩

/-- Claim C3 witness: a document whose single stage entry is an id-less
mapping fails with the id ValueError only after the create-workflow call
has executed. -/
theorem c3_bad_stage_entry_fails_in_loop_witness :
    (mc_main oracleWfOk argsPlain cfgNoIdStage).outcome = Outcome.uncaught msgStageId ∧
    ∃ cmds, cmds.length = 0 ∧
      (mc_main oracleWfOk argsPlain cfgNoIdStage).spawned =
        create_wf_cmd argsPlain wfMeta :: cmds :=
  c3_bad_stage_entry_fails_in_loop oracleWfOk argsPlain cfgNoIdStage
    wfMeta [] [] (PyVal.vdict []) [] msgStageId
    rfl rfl rfl rfl rfl rfl rfl rfl (by decide)
    (by intro s hs; exact absurd hs (List.not_mem_nil s)) rfl

/-- Claim C2 (code bug witnessed at a concrete input): for a merged stage
record with no `dunesw_version`, the constructed create-stage command does
NOT contain the consecutive token pair `--env`, `DUNESW_VERSION=v10_17_01d00`;
instead `cmd += "--env DUNESW_VERSION=v10_17_01d00"` (line 193) extends the
argv list with the 33 characters of that string as one-character tokens, so
the command contains a lone space token and two lone dash tokens. -/
theorem c2_dunesw_default_appended_as_chars :
    ∃ m cmd, merge_defaults stageOne [] = some m ∧
      build_stage_cmd ["justin"] "W1" m [] = Except.ok cmd ∧
      hasConsecPair cmd "--env" "DUNESW_VERSION=v10_17_01d00" = false ∧
      cmd.count " " = 1 ∧ cmd.count "-" = 2 := by
  refine ⟨_, _, rfl, rfl, ?_, ?_, ?_⟩ <;> decide

/-- Claim C4: if a stage's create-stage call returns non-zero exit status
(with every earlier stage processing cleanly), then the run terminates with
`sys.exit(3)`, the failing stage's id is named on stderr, the commands
spawned are exactly the create-workflow call, one create-stage call per
earlier stage and the failing stage's call — so no later-declared stage's
create-stage command and no submit-workflow command is ever executed. -/
theorem c4_fail_stop_exit3 (oracle : List String → ProcResult)
    (a : Args) (cfg : Dict) (workflow defaults : Dict)
    (pre : List PyVal) (bst m : Dict) (bcmd : List String) (rest : List PyVal)
    (wfid : String)
    (hwf : truthyOr (pyGet cfg "workflow" (PyVal.vdict [])) (PyVal.vdict []) =
      PyVal.vdict workflow)
    (hdf : truthyOr (pyGet cfg "defaults" (PyVal.vdict [])) (PyVal.vdict []) =
      PyVal.vdict defaults)
    (hst : truthyOr (pyGet cfg "stages" (PyVal.vlist [])) (PyVal.vlist []) =
      PyVal.vlist (pre ++ PyVal.vdict bst :: rest))
    (hdesc : dmem workflow "description" = true)
    (hmc : dmem workflow "monte_carlo" = true)
    (hdry : a.dry_run = false) (hwds : a.with_dune_setup = false)
    (hrc0 : (oracle (create_wf_cmd a workflow)).returncode = 0)
    (hwfid : pyStrip (oracle (create_wf_cmd a workflow)).stdout = wfid)
    (hwne : wfid ≠ "")
    (hpre : ∀ stv ∈ pre, stage_ok oracle a defaults wfid stv)
    (hid : dmem bst "id" = true)
    (hm : merge_defaults bst defaults = some m)
    (hb : build_stage_cmd (justin_global a) wfid m defaults = Except.ok bcmd)
    (hbrc : (oracle bcmd).returncode ≠ 0) :
    (mc_main oracle a cfg).outcome = Outcome.exited 3 ∧
    ("ERROR: create-stage failed for stage " ++ as_str (pyGet m "id" PyVal.vnone) ++ ".") ∈
      (mc_main oracle a cfg).errlog ∧
    (∃ cmds, cmds.length = pre.length ∧
      (∀ c ∈ cmds, ∃ tail, c = justin_global a ++ "create-stage" :: tail) ∧
      (mc_main oracle a cfg).spawned =
        create_wf_cmd a workflow :: (cmds ++ [bcmd])) ∧
    submit_cmd a wfid ∉ (mc_main oracle a cfg).spawned := by
  rw [mc_main_after_create oracle a cfg workflow defaults (pre ++ PyVal.vdict bst :: rest)
    hwf hdf hst (by simp) hdesc hmc hdry hwds hrc0]
  rw [hwfid, if_neg hwne]
  obtain ⟨logs, cmds, hlen, hshape, heq⟩ :=
    loop_stages_prefix oracle a defaults wfid hdry hwds pre hpre
      (PyVal.vdict bst :: rest)
      ["+ " ++ String.intercalate " " ((create_wf_cmd a workflow).map shlex_quote),
       "WFID=" ++ wfid]
      [] [create_wf_cmd a workflow]
  rw [heq, loop_stages_fail_head oracle a defaults wfid bst m bcmd rest _ _ _
    hdry hwds hid hm hb hbrc]
  refine ⟨rfl, by simp, ⟨cmds, hlen, hshape, by simp⟩, ?_⟩
  intro hmem
  have hcases : submit_cmd a wfid = create_wf_cmd a workflow ∨
      submit_cmd a wfid ∈ cmds ∨ submit_cmd a wfid = bcmd := by
    simpa using hmem
  rcases hcases with h1 | h2 | h3
  · have h1' : justin_global a ++ "submit-workflow" :: ["--workflow-id", wfid] =
        justin_global a ++ "create-workflow" ::
          ["--description", as_str (pyGet workflow "description" PyVal.vnone),
           "--monte-carlo", as_str (pyGet workflow "monte_carlo" PyVal.vnone)] := h1
    exact append_cons_ne _ _ _ _ _ (by decide) h1'
  · obtain ⟨tail, ht⟩ := hshape _ h2
    have h2' : justin_global a ++ "submit-workflow" :: ["--workflow-id", wfid] =
        justin_global a ++ "create-stage" :: tail := ht
    exact append_cons_ne _ _ _ _ _ (by decide) h2'
  · obtain ⟨tail, ht⟩ := build_stage_cmd_shape _ _ _ _ _ hb
    have h3' : justin_global a ++ "submit-workflow" :: ["--workflow-id", wfid] =
        justin_global a ++ "create-stage" :: tail := h3.trans ht
    exact append_cons_ne _ _ _ _ _ (by decide) h3'

/-- Claim C4 witness: on the two-stage fixture whose first create-stage
call fails, the run exits with status 3, names stage s1 on stderr, and the
submit-workflow command is never among the spawned commands (in particular
stage s2's call and the submission never happen). -/
theorem c4_fail_stop_exit3_witness :
    (mc_main oracleStageFails argsPlain cfgTwoStages).outcome = Outcome.exited 3 ∧
    ("ERROR: create-stage failed for stage s1.") ∈
      (mc_main oracleStageFails argsPlain cfgTwoStages).errlog ∧
    submit_cmd argsPlain "WF1" ∉ (mc_main oracleStageFails argsPlain cfgTwoStages).spawned := by
  have h := c4_fail_stop_exit3 oracleStageFails argsPlain cfgTwoStages wfMeta []
    [] stageOne _ _ [PyVal.vdict stageTwo] "WF1"
    rfl rfl rfl rfl rfl rfl rfl rfl rfl (by decide)
    (by intro s hs; exact absurd hs (List.not_mem_nil s))
    rfl rfl rfl (by decide)
  exact ⟨h.1, h.2.1, h.2.2.2⟩

/-- Claim C5: the merged env is the key-by-key union with stage precedence:
for every key, a binding in the stage env wins, otherwise the defaults env
binding applies. -/
theorem c5_env_merge_stage_precedence (stage defaults env_d env_s m : Dict)
    (hd : envDictOf defaults = some env_d) (hs : envDictOf stage = some env_s)
    (hnd : (dkeys env_s).Nodup)
    (hm : merge_defaults stage defaults = some m) :
    dlookup m "env" = some (PyVal.vdict (dupdate env_d env_s)) ∧
    ∀ k, dlookup (dupdate env_d env_s) k = (dlookup env_s k).or (dlookup env_d k) := by
  simp only [merge_defaults, hd, hs, Option.some.injEq] at hm
  subst hm
  constructor
  · rw [dlookup_dsetKey]
    simp
  · intro k
    exact dlookup_dupdate env_s env_d k hnd

/-- Claim C5 witness: defaults env `{A:1, B:2}` and stage env `{B:3, C:4}`
merge to `{A:1, B:3, C:4}`. -/
theorem c5_env_merge_stage_precedence_witness :
    dlookup
        [("env", PyVal.vdict [("A", PyVal.vint 1), ("B", PyVal.vint 3), ("C", PyVal.vint 4)])]
        "env" =
      some (PyVal.vdict [("A", PyVal.vint 1), ("B", PyVal.vint 3), ("C", PyVal.vint 4)]) ∧
    dlookup [("A", PyVal.vint 1), ("B", PyVal.vint 3), ("C", PyVal.vint 4)] "A" =
      some (PyVal.vint 1) ∧
    dlookup [("A", PyVal.vint 1), ("B", PyVal.vint 3), ("C", PyVal.vint 4)] "B" =
      some (PyVal.vint 3) ∧
    dlookup [("A", PyVal.vint 1), ("B", PyVal.vint 3), ("C", PyVal.vint 4)] "C" =
      some (PyVal.vint 4) := by
  have h := c5_env_merge_stage_precedence
    [("env", PyVal.vdict [("B", PyVal.vint 3), ("C", PyVal.vint 4)])]
    [("env", PyVal.vdict [("A", PyVal.vint 1), ("B", PyVal.vint 2)])]
    [("A", PyVal.vint 1), ("B", PyVal.vint 2)]
    [("B", PyVal.vint 3), ("C", PyVal.vint 4)]
    [("env", PyVal.vdict [("A", PyVal.vint 1), ("B", PyVal.vint 3), ("C", PyVal.vint 4)])]
    rfl rfl (by decide) rfl
  exact ⟨h.1, h.2 "A", h.2 "B", h.2 "C"⟩

/-- Claim C6 counterexample: merging the stage `{id: "s1"}` (which has no
env key) against empty defaults yields a record with a NEW `env` key bound
to `{}` — the stage is not returned unchanged-except-env-copied: a key the
stage did not have is added. -/
theorem c6_counterexample :
    merge_defaults [("id", PyVal.vstr "s1")] [] =
      some [("id", PyVal.vstr "s1"), ("env", PyVal.vdict [])] ∧
    dmem [("id", PyVal.vstr "s1")] "env" = false ∧
    dmem [("id", PyVal.vstr "s1"), ("env", PyVal.vdict [])] "env" = true :=
  ⟨rfl, rfl, rfl⟩

/-- Claim C6 (amended): merging a stage against empty defaults yields the
stage unchanged on every key other than `env`; `env` is bound to a copy of
the stage env, normalized to the empty map when absent or None, so the key
set is the stage key set plus `env` when absent. -/
theorem c6_merge_empty_defaults (stage env_s m : Dict)
    (hs : envDictOf stage = some env_s)
    (hnds : (dkeys stage).Nodup) (hnde : (dkeys env_s).Nodup)
    (hm : merge_defaults stage [] = some m) :
    (∀ k, k ≠ "env" → dlookup m k = dlookup stage k) ∧
    dlookup m "env" = some (PyVal.vdict env_s) ∧
    dkeys m = (if "env" ∈ dkeys stage then dkeys stage else dkeys stage ++ ["env"]) := by
  have hd0 : envDictOf ([] : Dict) = some [] := rfl
  simp only [merge_defaults, hd0, hs, Option.some.injEq] at hm
  rw [dupdate_nil_left stage hnds, dupdate_nil_left env_s hnde] at hm
  subst hm
  refine ⟨?_, ?_, ?_⟩
  · intro k hk
    rw [dlookup_dsetKey]
    rw [if_neg (fun hh => hk hh.symm)]
  · rw [dlookup_dsetKey]
    simp
  · by_cases hmem : "env" ∈ dkeys stage
    · rw [dkeys_dsetKey_of_mem _ _ _ hmem, if_pos hmem]
    · rw [dkeys_dsetKey_of_not_mem _ _ _ hmem, if_neg hmem]

/-- Claim C6 witness: a stage that already carries a dict env merges
against empty defaults to itself. -/
theorem c6_merge_empty_defaults_witness :
    dlookup [("id", PyVal.vstr "s1"), ("env", PyVal.vdict [("X", PyVal.vint 7)])] "id" =
      dlookup [("id", PyVal.vstr "s1"), ("env", PyVal.vdict [("X", PyVal.vint 7)])] "id" ∧
    dlookup [("id", PyVal.vstr "s1"), ("env", PyVal.vdict [("X", PyVal.vint 7)])] "env" =
      some (PyVal.vdict [("X", PyVal.vint 7)]) ∧
    dkeys [("id", PyVal.vstr "s1"), ("env", PyVal.vdict [("X", PyVal.vint 7)])] =
      ["id", "env"] := by
  have h := c6_merge_empty_defaults
    [("id", PyVal.vstr "s1"), ("env", PyVal.vdict [("X", PyVal.vint 7)])]
    [("X", PyVal.vint 7)]
    [("id", PyVal.vstr "s1"), ("env", PyVal.vdict [("X", PyVal.vint 7)])]
    rfl (by decide) (by decide) rfl
  exact ⟨h.1 "id" (by decide), h.2.1, h.2.2⟩

/-- Claim C7: when a stage has both a truthy `output_patterns` list and a
truthy `output_pattern` string, the output block contributes exactly one
`--output-pattern` flag per list element and nothing for the singular
field, and the constructed create-stage command contains exactly that flag
block. -/
theorem c7_output_patterns_precedence (st : Dict) (ops : List PyVal) (s : String)
    (h1 : dlookup st "output_patterns" = some (PyVal.vlist ops)) (h2 : ops ≠ [])
    (h3 : dlookup st "output_pattern" = some (PyVal.vstr s)) (h4 : s ≠ "")
    (sid : String) :
    output_pattern_flags sid st =
      Except.ok (ops.flatMap fun pat => ["--output-pattern", as_str pat]) ∧
    ∀ g w d cmd, build_stage_cmd g w st d = Except.ok cmd →
      ∃ pre post,
        cmd = pre ++ (ops.flatMap fun pat => ["--output-pattern", as_str pat]) ++ post := by
  have hmt : memTruthy st "output_patterns" = true := by
    unfold memTruthy
    rw [h1]
    simp [pyTruthy, h2]
  have hofp : ∀ sid' : String, output_pattern_flags sid' st =
      Except.ok (ops.flatMap fun pat => ["--output-pattern", as_str pat]) := by
    intro sid'
    simp [output_pattern_flags, hmt, pyGet, h1]
  refine ⟨hofp sid, ?_⟩
  intro g w d cmd hcmd
  obtain ⟨envFlags, opFlags, sFlags, _, hop, _, hc⟩ :=
    build_stage_cmd_ok_decomp g w st d cmd hcmd
  rw [hofp _] at hop
  have hopf : opFlags = ops.flatMap fun pat => ["--output-pattern", as_str pat] :=
    ((Except.ok.injEq _ _).mp hop).symm
  subst hopf
  refine ⟨g ++
    ["create-stage",
     "--workflow-id", w,
     "--stage-id", as_str (pyGet st "id" PyVal.vnone),
     "--jobscript-git",
     pyStr (pyGet st "repo" (pyGet d "repo" PyVal.vnone)) ++ "/" ++
       pyStr (pyGet st "jobscript" PyVal.vnone) ++ ":" ++
       pyStr (pyGet st "ref" (pyGet d "ref" PyVal.vnone))] ++
    resource_flags st ++ envFlags ++ tarfile_flags st ++ dunesw_flags st ++
    fhicl_flags st ++ next_stage_flags st,
    rse_flags st ++ lifetime_flags st ++ max_distance_flags st ++ sFlags ++
      classad_flags st, ?_⟩
  rw [hc]
  simp [List.append_assoc]

/-- Claim C7 witness: with `output_patterns: [a.root, b.root]` and
`output_pattern: "c.root"` both set, the block yields exactly the two flags
derived from the list. -/
theorem c7_output_patterns_precedence_witness :
    output_pattern_flags "s1"
        [("output_patterns", PyVal.vlist [PyVal.vstr "a.root", PyVal.vstr "b.root"]),
         ("output_pattern", PyVal.vstr "c.root")] =
      Except.ok ["--output-pattern", "a.root", "--output-pattern", "b.root"] := by
  have h := c7_output_patterns_precedence
    [("output_patterns", PyVal.vlist [PyVal.vstr "a.root", PyVal.vstr "b.root"]),
     ("output_pattern", PyVal.vstr "c.root")]
    [PyVal.vstr "a.root", PyVal.vstr "b.root"] "c.root"
    rfl (List.cons_ne_nil _ _) rfl (by decide) "s1"
  exact h.1

/-- Claim C8: under dry-run, `run_cmd` spawns no process and returns the
synthetic success result (exit status 0, empty captured output), while the
would-be command line is still echoed to the log. -/
theorem c8_dry_run_purity (oracle : List String → ProcResult)
    (argv_list : List String) (with_dune_setup capture : Bool) :
    runCmd oracle argv_list true with_dune_setup capture =
      { echoed := "+ " ++ String.intercalate " "
          ((build_justin_cmd argv_list with_dune_setup).map shlex_quote),
        spawned := Option.none,
        result := { returncode := 0, stdout := "", stderr := "" } } := rfl

/-- Claim C9: the heap-level `merge_defaults` never mutates a pre-existing
heap object: every cell present before the call (in particular the stage
dict, the defaults dict and their env sub-dicts) is unchanged afterwards;
the result lives in freshly allocated cells only. -/
theorem c9_merge_defaults_no_mutation (h : Heap) (sA dA : Nat) (h' : Heap) (r : Nat)
    (hm : merge_defaults_heap h sA dA = some (h', r)) (a : Nat) (ha : a < h.length) :
    hget h' a = hget h a :=
  merge_defaults_heap_frame h sA dA h' r hm a ha

/-- Claim C9 witness: merging stage cell 0 against defaults cell 1 (whose
env references cell 2) leaves cells 0, 1 and 2 exactly as they were. -/
theorem c9_merge_defaults_no_mutation_witness :
    hget ([[("k", HVal.prim (PyVal.vint 1))], [("env", HVal.ref 2)],
           [("E", HVal.prim (PyVal.vstr "v"))],
           [("env", HVal.ref 4), ("k", HVal.prim (PyVal.vint 1))],
           [("E", HVal.prim (PyVal.vstr "v"))], []] : Heap) 0 =
      hget ([[("k", HVal.prim (PyVal.vint 1))], [("env", HVal.ref 2)],
             [("E", HVal.prim (PyVal.vstr "v"))]] : Heap) 0 ∧
    hget ([[("k", HVal.prim (PyVal.vint 1))], [("env", HVal.ref 2)],
           [("E", HVal.prim (PyVal.vstr "v"))],
           [("env", HVal.ref 4), ("k", HVal.prim (PyVal.vint 1))],
           [("E", HVal.prim (PyVal.vstr "v"))], []] : Heap) 1 =
      hget ([[("k", HVal.prim (PyVal.vint 1))], [("env", HVal.ref 2)],
             [("E", HVal.prim (PyVal.vstr "v"))]] : Heap) 1 ∧
    hget ([[("k", HVal.prim (PyVal.vint 1))], [("env", HVal.ref 2)],
           [("E", HVal.prim (PyVal.vstr "v"))],
           [("env", HVal.ref 4), ("k", HVal.prim (PyVal.vint 1))],
           [("E", HVal.prim (PyVal.vstr "v"))], []] : Heap) 2 =
      hget ([[("k", HVal.prim (PyVal.vint 1))], [("env", HVal.ref 2)],
             [("E", HVal.prim (PyVal.vstr "v"))]] : Heap) 2 := by
  have hm : merge_defaults_heap
      ([[("k", HVal.prim (PyVal.vint 1))], [("env", HVal.ref 2)],
        [("E", HVal.prim (PyVal.vstr "v"))]] : Heap) 0 1 =
      some ([[("k", HVal.prim (PyVal.vint 1))], [("env", HVal.ref 2)],
             [("E", HVal.prim (PyVal.vstr "v"))],
             [("env", HVal.ref 4), ("k", HVal.prim (PyVal.vint 1))],
             [("E", HVal.prim (PyVal.vstr "v"))], []], 3) := rfl
  exact ⟨c9_merge_defaults_no_mutation _ 0 1 _ 3 hm 0 (by decide),
    c9_merge_defaults_no_mutation _ 0 1 _ 3 hm 1 (by decide),
    c9_merge_defaults_no_mutation _ 0 1 _ 3 hm 2 (by decide)⟩

/-- Claim C10: whenever the env values of both inputs are admissible
(absent, falsy such as None, or a dict), `merge_defaults` succeeds and its
result always binds the key `env` to a dict — the merge of the two
normalized env maps. -/
theorem c10_env_always_dict (stage defaults env_d env_s : Dict)
    (hd : envDictOf defaults = some env_d) (hs : envDictOf stage = some env_s) :
    (merge_defaults stage defaults).isSome = true ∧
    ∀ m, merge_defaults stage defaults = some m →
      dlookup m "env" = some (PyVal.vdict (dupdate env_d env_s)) := by
  constructor
  · simp only [merge_defaults, hd, hs]
    rfl
  · intro m hm
    simp only [merge_defaults, hd, hs, Option.some.injEq] at hm
    subst hm
    rw [dlookup_dsetKey]
    simp

/-- Claim C10 witness: a stage whose env is None, merged against defaults
with no env entry, yields a record whose `env` key is bound to the empty
dict (None is tolerated and treated as an empty map). -/
theorem c10_env_always_dict_witness :
    (merge_defaults [("id", PyVal.vstr "s1"), ("env", PyVal.vnone)] []).isSome = true ∧
    dlookup [("id", PyVal.vstr "s1"), ("env", PyVal.vdict [])] "env" =
      some (PyVal.vdict []) := by
  have h := c10_env_always_dict [("id", PyVal.vstr "s1"), ("env", PyVal.vnone)] [] [] [] rfl rfl
  exact ⟨h.1, h.2 [("id", PyVal.vstr "s1"), ("env", PyVal.vdict [])] rfl⟩

end MCJob
